import Mathlib

/-!
Shallow embedding of `sleep.py`'s interval-resolution core.

Timeline model: a `TimePoint` (Python `datetime`) and a `Duration`
(Python `timedelta`) are both rationals measured in minutes; `datetime`
arithmetic, comparisons and `timedelta` arithmetic are the corresponding
rational operations.  `TIMEZONE.localize` only attaches a timezone tag and
does not move the instant, so it is the identity on this timeline.

The external libraries the script calls (`dateparser.parse`, Python's
`float(...)` constructor, `parsedatetime.Calendar.parseDT`, and
`strftime`) are not part of the repository; they are modelled as abstract
functions collected in an `Env`, together with the sampled wall clock
`now`.  Python exceptions are modelled with `Except`; the distinct
`ValueError`s raised by the script are separated into structured
constructors recording exactly the data the corresponding message
interpolates.
-/

namespace Sleep

/-- The errors `sleep.py` can raise from the core (all are `ValueError` in
Python; the constructors record the values interpolated into the message).
`typeError` models the `TypeError` Python raises when `None` (a failed
`dateparser.parse`) meets `timedelta` arithmetic. -/
inductive Err where
  | parseErrorDuration (text : String)
  | durationInconsistent (checkDuration start endTime thresholdMins : ℚ)
  | startAfterEnd (start endTime : ℚ)
  | invalidCombination
  | typeError
  deriving DecidableEq

/-- The external collaborators of the temporal parser, plus the wall clock.
`dateparser` is `dateparser.parse` (returns `None`, i.e. `none`, when the
text cannot be resolved); `floatOf` is Python's `float(text)` (raising
`ValueError`, i.e. `none`, on non-numeric text); `pdt` is
`parsedatetime.Calendar().parseDT(text, sourceTime)` returning the parsed
instant, or `none` when `parse_status` is falsy; `fmt` is
`datetime.strftime("%Y-%m-%d %H:%M")`. -/
structure Env where
  dateparser : String → Option ℚ
  floatOf : String → Option ℚ
  pdt : String → ℚ → Option ℚ
  now : ℚ
  fmt : ℚ → String

/-- Python truthiness of an optional string (`None` and `""` are falsy). -/
def strTruthy : Option String → Bool
  | none => false
  | some s => decide (s ≠ "")

/-- Python truthiness of an optional `timedelta` (`None` and
`timedelta(0)` are falsy). -/
def tdTruthy : Option ℚ → Bool
  | none => false
  | some d => decide (d ≠ 0)

/-- Python truthiness of an optional `datetime` (a `datetime` object is
always truthy). -/
def dtTruthy (t : Option ℚ) : Bool :=
  t.isSome

/-- `parse_time`: delegates to `dateparser.parse`, propagating its `None`
on failure — it does not raise. -/
def parse_time (env : Env) (input_time : String) : Option ℚ :=
  env.dateparser input_time

/-- `parse_duration`: first try `float(input_duration)` hours; otherwise
`parsedatetime` with `sourceTime = now`, returning `time_struct - now`;
raise `ValueError` when neither succeeds. An hour is 60 minutes. -/
def parse_duration (env : Env) (input_duration : String) : Except Err ℚ :=
  match env.floatOf input_duration with
  | some hours => .ok (60 * hours)
  | none =>
    match env.pdt input_duration env.now with
    | none => .error (.parseErrorDuration input_duration)
    | some time_struct => .ok (time_struct - env.now)

/-- `get_checked_duration(start, end, check_duration, threshold_mins)`:
returns `end - start` when `check_duration` is falsy; otherwise enforces
`|calculated - check| <= threshold` and returns the max of the two. -/
def get_checked_duration (start endTime : ℚ) (check_duration : Option ℚ)
    (threshold_mins : ℚ) : Except Err ℚ :=
  let calculated_duration := endTime - start
  if tdTruthy check_duration = false then .ok calculated_duration
  else
    let cd := check_duration.getD 0
    if |calculated_duration - cd| > threshold_mins then
      .error (.durationInconsistent cd start endTime threshold_mins)
    else .ok (max cd calculated_duration)

/-- The `if/elif` chain of `get_interval` over the already-parsed slots,
with Python's truthiness in each condition.  The `.getD 0` extractions are
only reached under guards forcing the slot to be `some`; the final `else`
is the "Is this even reachable?" branch. -/
def interval_branches (env : Env) (start? end? duration? : Option ℚ)
    (default_end default_duration : String) : Except Err (ℚ × ℚ × ℚ) :=
  let sT := dtTruthy start?
  let eT := dtTruthy end?
  let dT := tdTruthy duration?
  if sT && eT && dT then
    -- Consistency check.
    match get_checked_duration (start?.getD 0) (end?.getD 0) duration? 5 with
    | .error er => .error er
    | .ok d => .ok (start?.getD 0, end?.getD 0, d)
  else if sT && eT then
    -- Calculate duration (same call; `duration?` may be a falsy some 0).
    match get_checked_duration (start?.getD 0) (end?.getD 0) duration? 5 with
    | .error er => .error er
    | .ok d => .ok (start?.getD 0, end?.getD 0, d)
  else if sT && dT then
    -- Calculate end.
    .ok (start?.getD 0, start?.getD 0 + duration?.getD 0, duration?.getD 0)
  else if eT && dT then
    -- Calculate start.
    .ok (end?.getD 0 - duration?.getD 0, end?.getD 0, duration?.getD 0)
  else if dT && !(sT || eT) then
    match parse_time env default_end with
    | none => .error .typeError
    | some e => .ok (e - duration?.getD 0, e, duration?.getD 0)
  else if sT && !(eT || dT) then
    match parse_duration env default_duration with
    | .error er => .error er
    | .ok d => .ok (start?.getD 0, start?.getD 0 + d, d)
  else if eT && !(sT || dT) then
    match parse_duration env default_duration with
    | .error er => .error er
    | .ok d => .ok (end?.getD 0 - d, end?.getD 0, d)
  else if !(sT || eT || dT) then
    -- Nothing was passed. Assume end is primary.  Python evaluates
    -- `parse_duration(default_duration)` before `end - duration`, so a
    -- duration `ValueError` wins over the `TypeError` from a `None` end.
    match parse_time env default_end, parse_duration env default_duration with
    | _, .error er => .error er
    | none, .ok _ => .error .typeError
    | some e, .ok d => .ok (e - d, e, d)
  else
    -- Is this even reachable?
    .error .invalidCombination

/-- `get_interval(input_start, input_end, input_duration, default_end,
default_duration)`: parse the supplied slots (a falsy input string leaves
the slot as `None`), run the case split, localize (the identity here) and
reject `start > end`. -/
def get_interval (env : Env) (input_start input_end input_duration : Option String)
    (default_end default_duration : String) : Except Err (ℚ × ℚ × ℚ) :=
  let start? : Option ℚ :=
    if strTruthy input_start then parse_time env (input_start.getD "") else none
  let end? : Option ℚ :=
    if strTruthy input_end then parse_time env (input_end.getD "") else none
  match (if strTruthy input_duration
         then match parse_duration env (input_duration.getD "") with
              | .error er => .error er
              | .ok d => .ok (some d)
         else .ok none : Except Err (Option ℚ)) with
  | .error er => .error er
  | .ok duration? =>
    match interval_branches env start? end? duration? default_end default_duration with
    | .error er => .error er
    | .ok (s, e, d) =>
      -- TIMEZONE.localize: identity on the timeline.
      if s > e then .error (.startAfterEnd s e) else .ok (s, e, d)

/-- The parsed command-line arguments relevant to the core (argparse gives
`None` for an omitted string option and `False` for an unset flag). -/
structure Args where
  start : Option String
  end_ : Option String
  duration : Option String
  predict_next : Bool
  next_start : Option String
  next_end : Option String
  next_duration : Option String
  default_offset : String
  update_calendar : Bool

/-- `prediction_requested(args)`. -/
def prediction_requested (args : Args) : Bool :=
  args.predict_next || strTruthy args.next_start || strTruthy args.next_end
    || strTruthy args.next_duration

/-- `get_current_interval(args)` (the verbose printing is I/O glue). -/
def get_current_interval (env : Env) (args : Args) : Except Err (ℚ × ℚ × ℚ) :=
  get_interval env args.start args.end_ args.duration "now" "8"

/-- `get_next_interval(args, current_interval)`: `None` when no prediction
is requested; otherwise parse the offset, derive a formatted
`next_start = curr_end + offset` when no next-* field is supplied, and
delegate to `get_interval`. -/
def get_next_interval (env : Env) (args : Args) (current_interval : ℚ × ℚ × ℚ) :
    Except Err (Option (ℚ × ℚ × ℚ)) :=
  if !prediction_requested args then .ok none
  else
    match parse_duration env args.default_offset with
    | .error er => .error er
    | .ok offset =>
      let next_start : Option String :=
        if !(strTruthy args.next_start || strTruthy args.next_end
              || strTruthy args.next_duration) then
          some (env.fmt (current_interval.2.1 + offset))
        else args.next_start
      match get_interval env next_start args.next_end args.next_duration "now" "8" with
      | .error er => .error er
      | .ok iv => .ok (some iv)

/-- The calendar-collaborator calls `main` can perform, in order. -/
inductive Effect where
  | getService
  | ensureCalendar
  | insertCurrentEvent
  | insertNextEvent
  deriving DecidableEq

/-- `main()` as a trace: the list of collaborator calls performed and the
error aborting the run, if any.  Both interval resolutions happen before
`get_service()`; with `--update-calendar` unset no collaborator is called. -/
def main_run (env : Env) (args : Args) : List Effect × Option Err :=
  match get_current_interval env args with
  | .error er => ([], some er)
  | .ok current_interval =>
    match get_next_interval env args current_interval with
    | .error er => ([], some er)
    | .ok next_interval =>
      if !args.update_calendar then ([], none)
      else
        (([.getService, .ensureCalendar, .insertCurrentEvent] ++
          (if next_interval.isSome then [.insertNextEvent] else [])), none)

/-- A concrete environment used to exercise the definitions: the clock
reads 1000 (minutes); `dateparser` resolves "now" and the two literal
timestamps "s0" and "e10" / "e483"; `float` accepts the numerals the
scenarios use; natural-language duration parsing resolves "90 minutes". -/
def envW : Env where
  dateparser := fun t =>
    if t = "now" then some 1000
    else if t = "s0" then some 0
    else if t = "e10" then some 10
    else if t = "e483" then some 483
    else if t = "t1360" then some 1360
    else none
  floatOf := fun t =>
    if t = "0" then some 0
    else if t = "8" then some 8
    else if t = "21" then some 21
    else if t = "-1" then some (-1)
    else none
  pdt := fun t now => if t = "90 minutes" then some (now + 90) else none
  now := 1000
  fmt := fun _ => "t1360"

/-- A run whose current-interval duration text is unparseable. -/
def argsFail : Args where
  start := none
  end_ := none
  duration := some "zzz"
  predict_next := false
  next_start := none
  next_end := none
  next_duration := none
  default_offset := "16"
  update_calendar := false

/-- A run requesting a prediction with no next-* information and a
21-hour offset. -/
def argsPredict : Args where
  start := some "s0"
  end_ := some "e483"
  duration := none
  predict_next := true
  next_start := none
  next_end := none
  next_duration := none
  default_offset := "21"
  update_calendar := false

instance {ε α : Type} [DecidableEq ε] [DecidableEq α] : DecidableEq (Except ε α) :=
  fun a b =>
    match a, b with
    | .ok x, .ok y =>
      if h : x = y then .isTrue (by rw [h]) else .isFalse (by simp [h])
    | .error x, .error y =>
      if h : x = y then .isTrue (by rw [h]) else .isFalse (by simp [h])
    | .ok _, .error _ => .isFalse (fun h => Except.noConfusion h)
    | .error _, .ok _ => .isFalse (fun h => Except.noConfusion h)

/-- `parse_duration` only ever fails with a duration parse error. -/
lemma parse_duration_error (env : Env) (t : String) (er : Err)
    (h : parse_duration env t = .error er) : er = .parseErrorDuration t := by
  unfold parse_duration at h
  cases hf : env.floatOf t <;> rw [hf] at h
  · cases hp : env.pdt t env.now <;> rw [hp] at h
    · exact (Except.error.injEq _ _).mp h.symm
    · exact absurd h (by simp)
  · exact absurd h (by simp)

/-- `get_checked_duration` only ever fails with the inconsistency error. -/
lemma get_checked_duration_error (s e : ℚ) (c : Option ℚ) (th : ℚ) (er : Err)
    (h : get_checked_duration s e c th = .error er) :
    er = .durationInconsistent (c.getD 0) s e th := by
  unfold get_checked_duration at h
  by_cases hc : tdTruthy c = false <;> simp [hc] at h
  by_cases habs : |e - s - c.getD 0| > th <;> simp [habs] at h
  exact h.symm

/-- The `if/elif` chain never reaches the final `else`. -/
lemma interval_branches_not_invalid (env : Env) (start? end? duration? : Option ℚ)
    (dE dD : String) :
    interval_branches env start? end? duration? dE dD ≠ .error .invalidCombination := by
  unfold interval_branches
  have hcd : ∀ s e c er, get_checked_duration s e c (5:ℚ) = .error er →
      er ≠ Err.invalidCombination := by
    intro s e c er h
    rw [get_checked_duration_error s e c 5 er h]
    intro hco
    exact Err.noConfusion hco
  have hpd : ∀ t er, parse_duration env t = .error er → er ≠ Err.invalidCombination := by
    intro t er h
    rw [parse_duration_error env t er h]
    intro hco
    exact Err.noConfusion hco
  cases hs : dtTruthy start? <;> cases he : dtTruthy end? <;>
      cases hd : tdTruthy duration? <;> simp [hs, he, hd]
  · cases ht : parse_time env dE <;> cases hp : parse_duration env dD <;>
      simp [ht, hp] <;> exact hpd _ _ hp
  · cases ht : parse_time env dE <;> simp [ht]
  · cases hp : parse_duration env dD <;> simp [hp] <;> exact hpd _ _ hp
  · cases hp : parse_duration env dD <;> simp [hp] <;> exact hpd _ _ hp
  · cases hg : get_checked_duration (start?.getD 0) (end?.getD 0) duration? 5 <;>
      simp [hg] <;> exact hcd _ _ _ _ hg
  · cases hg : get_checked_duration (start?.getD 0) (end?.getD 0) duration? 5 <;>
      simp [hg] <;> exact hcd _ _ _ _ hg

/-- C2: with nonempty, parseable start and end supplied, duration absent,
and start not after end, `get_interval` returns the triple with duration
exactly `end - start`. -/
theorem resolve_start_end_gives_difference (env : Env) (ss es dE dD : String) (s e : ℚ)
    (hss : ss ≠ "") (hes : es ≠ "")
    (hs : env.dateparser ss = some s) (he : env.dateparser es = some e)
    (hle : s ≤ e) :
    get_interval env (some ss) (some es) none dE dD = .ok (s, e, e - s) := by
  simp [get_interval, interval_branches, parse_time, get_checked_duration,
    strTruthy, tdTruthy, dtTruthy, hss, hes, hs, he, not_lt.mpr hle]

theorem resolve_start_end_gives_difference_witness :
    get_interval envW (some "s0") (some "e483") none "now" "8" = .ok (0, 483, 483 - 0) :=
  resolve_start_end_gives_difference envW "s0" "e483" "now" "8" 0 483
    (by decide) (by decide) (by decide) (by decide) (by norm_num)

/-- C4: with nothing supplied, `get_interval` applies the defaults: end is
the parse of the default end text "now" (the current instant), the
duration is the parse of the default duration text "8" (8 hours =
480 minutes), and start is end minus that duration. -/
theorem resolve_defaults (env : Env)
    (hnow : env.dateparser "now" = some env.now)
    (h8 : env.floatOf "8" = some 8) :
    get_interval env none none none "now" "8" = .ok (env.now - 480, env.now, 480) := by
  have h60 : (60:ℚ) * 8 = 480 := by norm_num
  have hno : ¬ (env.now < env.now - (480:ℚ)) :=
    not_lt.mpr (by linarith)
  simp [get_interval, interval_branches, parse_time, parse_duration,
    strTruthy, tdTruthy, dtTruthy, hnow, h8, h60, hno]

theorem resolve_defaults_witness :
    get_interval envW none none none "now" "8" = .ok (envW.now - 480, envW.now, 480) :=
  resolve_defaults envW (by decide) (by decide)

/-- C7: `parse_duration` first interprets its text as a bare numeric count
of hours; if `float` fails it parses via `parsedatetime` as an offset from
the current instant and takes the delta; if that also fails it raises the
duration parse error. -/
theorem parse_duration_two_stage (env : Env) (text : String) :
    (∀ h : ℚ, env.floatOf text = some h → parse_duration env text = .ok (60 * h)) ∧
    (env.floatOf text = none → ∀ t : ℚ, env.pdt text env.now = some t →
        parse_duration env text = .ok (t - env.now)) ∧
    (env.floatOf text = none → env.pdt text env.now = none →
        parse_duration env text = .error (.parseErrorDuration text)) := by
  refine ⟨?_, ?_, ?_⟩
  · intro h hf
    simp [parse_duration, hf]
  · intro hf t hp
    simp [parse_duration, hf, hp]
  · intro hf hp
    simp [parse_duration, hf, hp]

theorem parse_duration_two_stage_witness :
    parse_duration envW "8" = .ok (60 * 8) ∧
    parse_duration envW "90 minutes" = .ok (envW.now + 90 - envW.now) ∧
    parse_duration envW "zzz" = .error (.parseErrorDuration "zzz") :=
  ⟨(parse_duration_two_stage envW "8").1 8 (by decide),
   (parse_duration_two_stage envW "90 minutes").2.1 (by decide) (envW.now + 90) rfl,
   (parse_duration_two_stage envW "zzz").2.2 (by decide) (by decide)⟩

/-- C9: the case split over presence of start, end, and duration is
exhaustive: `get_interval` never returns the "Invalid combination" error
of the final `else` branch. -/
theorem case_split_exhaustive (env : Env)
    (input_start input_end input_duration : Option String) (dE dD : String) :
    get_interval env input_start input_end input_duration dE dD ≠
      .error .invalidCombination := by
  intro h
  simp only [get_interval] at h
  split at h
  · rename_i er heq
    injection h with h2
    subst h2
    by_cases hst : strTruthy input_duration = true
    · rw [if_pos hst] at heq
      cases hp : parse_duration env (input_duration.getD "") <;> rw [hp] at heq
      · simp only [] at heq
        injection heq with h3
        have h4 := parse_duration_error env (input_duration.getD "") _ hp
        rw [h3] at h4
        exact Err.noConfusion h4
      · exact Except.noConfusion heq
    · rw [if_neg hst] at heq
      exact Except.noConfusion heq
  · rename_i d? heq
    split at h
    · rename_i er heq2
      injection h with h2
      subst h2
      exact interval_branches_not_invalid env _ _ _ dE dD heq2
    · rename_i s e d heq2
      split at h
      · injection h with h2
        exact Err.noConfusion h2
      · exact Except.noConfusion h

theorem case_split_exhaustive_witness :
    get_interval envW none none none "now" "8" ≠ .error .invalidCombination :=
  case_split_exhaustive envW none none none "now" "8"

/-- C5: a triple returned by `get_interval` never has start after end, and
when `main` aborts with an error no calendar-collaborator call has been
made (the error happens before `get_service`). -/
theorem resolve_never_start_after_end :
    (∀ (env : Env) (i_s i_e i_d : Option String) (dE dD : String) (s e d : ℚ),
        get_interval env i_s i_e i_d dE dD = .ok (s, e, d) → s ≤ e) ∧
    (∀ (env : Env) (args : Args),
        (main_run env args).2.isSome = true → (main_run env args).1 = []) := by
  constructor
  · intro env i_s i_e i_d dE dD s e d h
    simp only [get_interval] at h
    split at h
    · exact Except.noConfusion h
    · split at h
      · exact Except.noConfusion h
      · rename_i s' e' d' heq2
        split at h
        · exact Except.noConfusion h
        · rename_i hlt
          injection h with h2
          have h3 : s' = s := congrArg Prod.fst h2
          have h4 : e' = e := congrArg (fun p => p.2.1) h2
          subst h3
          subst h4
          exact not_lt.mp hlt
  · intro env args h
    simp only [main_run] at h ⊢
    cases hc : get_current_interval env args <;> simp only [hc] at h ⊢
    cases hn : get_next_interval env args _ <;> simp only [hn] at h ⊢
    by_cases hu : args.update_calendar <;> simp [hu] at h

theorem resolve_never_start_after_end_witness :
    (520:ℚ) ≤ 1000 ∧ (main_run envW argsFail).1 = [] :=
  ⟨resolve_never_start_after_end.1 envW none none none "now" "8" 520 1000 480
      (by simp +decide [get_interval, interval_branches, parse_time, parse_duration,
        get_checked_duration, strTruthy, tdTruthy, dtTruthy, envW] <;> norm_num),
   resolve_never_start_after_end.2 envW argsFail
      (by simp +decide [main_run, get_current_interval, get_next_interval,
        prediction_requested, get_interval, interval_branches, parse_time,
        parse_duration, get_checked_duration, strTruthy, tdTruthy, dtTruthy,
        envW, argsFail])⟩

/-- C1 as stated fails: a supplied duration text parsing to `timedelta(0)`
is falsy, so the consistency check is skipped even though the calculated
duration (10 minutes) differs from the supplied one (0) by more than the
5-minute tolerance, and the call succeeds. -/
theorem consistency_iff_counterexample :
    |((10:ℚ) - 0) - 0| > 5 ∧
    parse_duration envW "0" = .ok 0 ∧
    get_interval envW (some "s0") (some "e10") (some "0") "now" "8" = .ok (0, 10, 10) := by
  refine ⟨by norm_num, ?_, ?_⟩
  · simp +decide [parse_duration, envW]
  · simp +decide [get_interval, interval_branches, parse_time, parse_duration,
      get_checked_duration, strTruthy, tdTruthy, dtTruthy, envW] <;> norm_num

/-- C1 (amended): when start, end, and duration are all supplied and the
duration parses to a nonzero value, the call fails with the inconsistency
error (naming the supplied duration, start, end, and the 5-minute
tolerance) iff `|((end - start)) - duration|` exceeds the tolerance;
within tolerance it returns `max(duration, end - start)` unless the
separate start-after-end validation rejects the pair. -/
theorem resolve_all_three_checked (env : Env) (ss es ds dE dD : String) (s e d : ℚ)
    (hss : ss ≠ "") (hes : es ≠ "") (hds : ds ≠ "")
    (hs : env.dateparser ss = some s) (he : env.dateparser es = some e)
    (hd : parse_duration env ds = .ok d) (hdz : d ≠ 0) :
    get_interval env (some ss) (some es) (some ds) dE dD =
      if |e - s - d| > 5 then .error (.durationInconsistent d s e 5)
      else if s > e then .error (.startAfterEnd s e)
      else .ok (s, e, max d (e - s)) := by
  by_cases habs : |e - s - d| > 5 <;> by_cases hlt : s > e <;>
    simp [get_interval, interval_branches, parse_time, get_checked_duration,
      strTruthy, tdTruthy, dtTruthy, hss, hes, hds, hs, he, hd, hdz, habs, hlt]

theorem resolve_all_three_checked_witness :
    get_interval envW (some "s0") (some "e483") (some "8") "now" "8" =
      if |(483:ℚ) - 0 - 480| > 5 then .error (.durationInconsistent 480 0 483 5)
      else if (0:ℚ) > 483 then .error (.startAfterEnd 0 483)
      else .ok (0, 483, max 480 (483 - 0)) :=
  resolve_all_three_checked envW "s0" "e483" "8" "now" "8" 0 483 480
    (by decide) (by decide) (by decide) (by decide) (by decide)
    (by simp +decide [parse_duration, envW] <;> norm_num) (by norm_num)

/-- C3 as stated fails: with only start and a duration text parsing to
`timedelta(0)` supplied, the zero duration is falsy, so the resolver falls
through to the default-duration branch and returns `end = start + 8h`,
not `start + duration`. -/
theorem two_sided_zero_duration_counterexample :
    parse_duration envW "0" = .ok 0 ∧
    get_interval envW (some "s0") none (some "0") "now" "8" = .ok (0, 480, 480) ∧
    (480:ℚ) ≠ 0 + 0 := by
  refine ⟨?_, ?_, by norm_num⟩
  · simp +decide [parse_duration, envW]
  · simp +decide [get_interval, interval_branches, parse_time, parse_duration,
      get_checked_duration, strTruthy, tdTruthy, dtTruthy, envW] <;> norm_num

/-- C3 (amended): when the supplied duration parses to a positive span,
`get_interval` with exactly start and duration returns
`end = start + duration`, and with exactly end and duration returns
`start = end - duration`. -/
theorem resolve_one_endpoint_plus_duration (env : Env) (ss es ds dE dD : String)
    (s e d : ℚ) (hds : ds ≠ "")
    (hd : parse_duration env ds = .ok d) (hdpos : 0 < d) :
    (ss ≠ "" → env.dateparser ss = some s →
        get_interval env (some ss) none (some ds) dE dD = .ok (s, s + d, d)) ∧
    (es ≠ "" → env.dateparser es = some e →
        get_interval env none (some es) (some ds) dE dD = .ok (e - d, e, d)) := by
  have hdz : d ≠ 0 := ne_of_gt hdpos
  constructor
  · intro hss hs
    have hno : ¬ (s > s + d) := not_lt.mpr (le_add_of_nonneg_right (le_of_lt hdpos))
    simp [get_interval, interval_branches, parse_time, strTruthy, tdTruthy,
      dtTruthy, hss, hds, hs, hd, hdz, hno]
  · intro hes he
    have hno : ¬ (e - d > e) := not_lt.mpr (sub_le_self e (le_of_lt hdpos))
    simp [get_interval, interval_branches, parse_time, strTruthy, tdTruthy,
      dtTruthy, hes, hds, he, hd, hdz, hno]

theorem resolve_one_endpoint_plus_duration_witness :
    get_interval envW (some "s0") none (some "8") "now" "8" = .ok (0, 0 + 480, 480) ∧
    get_interval envW none (some "e483") (some "8") "now" "8" = .ok (483 - 480, 483, 480) :=
  ⟨(resolve_one_endpoint_plus_duration envW "s0" "e483" "8" "now" "8" 0 483 480
      (by decide) (by simp +decide [parse_duration, envW] <;> norm_num) (by norm_num)).1
      (by decide) (by decide),
   (resolve_one_endpoint_plus_duration envW "s0" "e483" "8" "now" "8" 0 483 480
      (by decide) (by simp +decide [parse_duration, envW] <;> norm_num) (by norm_num)).2
      (by decide) (by decide)⟩

/-- C10: a supplied duration parsing to exactly zero is falsy and hence
treated as absent: with start and end also supplied the consistency check
is skipped and the duration is `end - start`; with only start supplied the
default 8-hour duration is applied. -/
theorem zero_duration_treated_absent (env : Env) (ss es ds dE : String) (s e : ℚ)
    (hss : ss ≠ "") (hds : ds ≠ "")
    (hs : env.dateparser ss = some s)
    (hzero : parse_duration env ds = .ok 0) :
    (es ≠ "" → env.dateparser es = some e → s ≤ e →
        get_interval env (some ss) (some es) (some ds) dE "8" = .ok (s, e, e - s)) ∧
    (env.floatOf "8" = some 8 →
        get_interval env (some ss) none (some ds) dE "8" = .ok (s, s + 480, 480)) := by
  constructor
  · intro hes he hle
    simp [get_interval, interval_branches, parse_time, get_checked_duration,
      strTruthy, tdTruthy, dtTruthy, hss, hes, hds, hs, he, hzero, not_lt.mpr hle]
  · intro h8
    have hd8 : parse_duration env "8" = .ok 480 := by
      simp [parse_duration, h8]
      norm_num
    have hno : ¬ (s > s + (480:ℚ)) := not_lt.mpr (le_add_of_nonneg_right (by norm_num))
    simp [get_interval, interval_branches, parse_time, strTruthy,
      tdTruthy, dtTruthy, hss, hds, hs, hzero, hd8, hno]

theorem zero_duration_treated_absent_witness :
    get_interval envW (some "s0") (some "e10") (some "0") "now" "8" = .ok (0, 10, 10 - 0) ∧
    get_interval envW (some "s0") none (some "0") "now" "8" = .ok (0, 0 + 480, 480) :=
  ⟨(zero_duration_treated_absent envW "s0" "e10" "0" "now" 0 10 (by decide) (by decide)
      (by decide) (by simp +decide [parse_duration, envW])).1
      (by decide) (by decide) (by norm_num),
   (zero_duration_treated_absent envW "s0" "e10" "0" "now" 0 10 (by decide) (by decide)
      (by decide) (by simp +decide [parse_duration, envW])).2 (by decide)⟩

/-- C6: when a prediction is requested and no next-* field is supplied,
the next interval's start is the current interval's end plus the parsed
offset (round-tripped through `strftime` and the time parser), and its
duration is the default 8 hours. -/
theorem predict_next_offset_defaults (env : Env) (args : Args) (cur : ℚ × ℚ × ℚ)
    (offset : ℚ)
    (hreq : prediction_requested args = true)
    (hns : strTruthy args.next_start = false)
    (hne : strTruthy args.next_end = false)
    (hnd : strTruthy args.next_duration = false)
    (hoff : parse_duration env args.default_offset = .ok offset)
    (hfmt : env.fmt (cur.2.1 + offset) ≠ "")
    (hparse : env.dateparser (env.fmt (cur.2.1 + offset)) = some (cur.2.1 + offset))
    (h8 : env.floatOf "8" = some 8) :
    get_next_interval env args cur =
      .ok (some (cur.2.1 + offset, cur.2.1 + offset + 480, 480)) := by
  have hd8 : parse_duration env "8" = .ok 480 := by
    simp [parse_duration, h8]
    norm_num
  have hfmtT : strTruthy (some (env.fmt (cur.2.1 + offset))) = true := by
    simp [strTruthy, hfmt]
  have hno : ¬ (cur.2.1 + offset > cur.2.1 + offset + (480:ℚ)) :=
    not_lt.mpr (le_add_of_nonneg_right (by norm_num))
  simp [get_next_interval, get_interval, interval_branches, parse_time,
    tdTruthy, dtTruthy, hreq, hns, hne, hnd, hoff,
    hfmtT, hparse, hd8, hno]

theorem predict_next_offset_defaults_witness :
    get_next_interval envW argsPredict (0, 100, 100) =
      .ok (some (((0:ℚ), (100:ℚ), (100:ℚ)).2.1 + 1260,
        ((0:ℚ), (100:ℚ), (100:ℚ)).2.1 + 1260 + 480, 480)) :=
  predict_next_offset_defaults envW argsPredict (0, 100, 100) 1260
    (by decide) (by decide) (by decide) (by decide)
    (by simp +decide [parse_duration, envW, argsPredict] <;> norm_num)
    (by decide) (by simp +decide [envW] <;> norm_num) (by decide)

/-- C8's failing input: `parse_time` returns `None` for unresolvable text
instead of raising, and `get_interval` then silently treats the supplied
start as absent, resolving to the default interval (now minus 8 hours,
now) instead of failing with a parse error. -/
theorem parse_time_silently_absent :
    parse_time envW "gibberish" = none ∧
    get_interval envW (some "gibberish") none none "now" "8" = .ok (520, 1000, 480) := by
  refine ⟨by decide, ?_⟩
  simp +decide [get_interval, interval_branches, parse_time, parse_duration,
    get_checked_duration, strTruthy, tdTruthy, dtTruthy, envW] <;> norm_num

end Sleep
